import Mathlib

/-!
Shallow embedding of the switching decision engine in
`src/decision_engine.py` (classes `BaseDecisionEngine`,
`MLBasedDecisionEngine`, `RuleBasedDecisionEngine`,
`HybridDecisionEngine`, `DecisionEngine`).

Modelling conventions:
- Python floats are modelled as `ℚ`.
- Python exceptions are modelled by `Except PyError`; a Python function
  that can raise returns `Except PyError α`.
- `datetime` values are modelled as rational timestamps in seconds; the
  call `datetime.utcnow()` is passed in explicitly as a `now` argument.
- Python dict reads with `.get(key, default)` are modelled by structure
  fields holding the already-defaulted value.
- `round(x, n)` on floats is modelled as exact decimal rounding
  half-to-even at `n` digits.
- f-string reasons are modelled by their fixed descriptive text, with
  the interpolated numbers elided, except where a reason string in the
  source is a plain literal (for example "Pool not in training data"),
  which is kept verbatim.
-/

/-- Python exception kinds that the embedded code can raise. -/
inductive PyError
  | typeError
  | zeroDivisionError
  | valueError
  | keyError
deriving DecidableEq, Repr

/-- One entry of the spot_pools list of the pricing dict, holding a
pool_id and a price. -/
structure SpotPool where
  pool_id : String
  price : ℚ
deriving DecidableEq, Repr

/-- The `pricing` argument of `make_decision`. -/
structure PricingSnapshot where
  on_demand_price : ℚ
  spot_pools : List SpotPool
deriving DecidableEq, Repr

/-- The `instance` argument of `make_decision`, after the
`instance.get(..., default)` reads: `current_pool_id` defaults to
"unknown" and `current_mode` to "spot". -/
structure InstanceState where
  instance_id : String
  current_pool_id : String
  current_mode : String
deriving DecidableEq, Repr

/-- The `config` argument of `make_decision` (per-agent policy). -/
structure PolicyConfig where
  auto_switch_enabled : Bool
  min_savings_percent : ℚ
  risk_threshold : ℚ
  max_switches_per_week : ℤ
  min_pool_duration_hours : ℚ
deriving DecidableEq, Repr

/-- The decision dict returned by `make_decision`. -/
structure Decision where
  instance_id : String
  risk_score : ℚ
  recommended_action : String
  recommended_mode : String
  recommended_pool_id : String
  expected_savings_per_hour : ℚ
  allowed : Bool
  reason : String
deriving DecidableEq, Repr

/-- Floor-based rounding half to even of a rational to an integer,
the behaviour of Python `round` on an exactly representable value. -/
def roundHalfEven (x : ℚ) : ℤ :=
  let f := Int.floor x
  let frac := x - f
  if frac < 1/2 then f
  else if 1/2 < frac then f + 1
  else if f % 2 = 0 then f else f + 1

/-- `round(x, n)` of Python, modelled as exact decimal rounding. -/
def roundTo (n : ℕ) (x : ℚ) : ℚ := (roundHalfEven (x * 10 ^ n) : ℚ) / 10 ^ n

/-- `(datetime.utcnow() - last_switch_time).total_seconds() / 3600`
with both timestamps in seconds. -/
def hours_since (now t : ℚ) : ℚ := (now - t) / 3600

/-- The price lookup loop of `make_decision` (lines 83-87): the first
pool whose `pool_id` equals `current_pool_id`, else `None`. -/
def priceLookup (pools : List SpotPool) (pid : String) : Option ℚ :=
  (pools.find? (fun p => p.pool_id == pid)).map SpotPool.price

/-- Lines 83-91 of `make_decision`: resolve the current spot price and
pool id. Python tests `not current_spot_price`, which is true both for
`None` and for a price of exactly `0.0`; in that case, when the pool
list is nonempty, the first quote is adopted as the synthetic current
price and pool. -/
def resolveCurrent (pools : List SpotPool) (cur : String) : Option ℚ × String :=
  let found := priceLookup pools cur
  match pools with
  | [] => (found, cur)
  | p0 :: _ =>
    if found = none ∨ found = some 0 then (some p0.price, p0.pool_id)
    else (found, cur)

/-- `current_price / ondemand_price if ondemand_price > 0 else 1.0`
as used by both scorers; raises `TypeError` when the current price is
`None` and the division is attempted. -/
def priceRatio (cp : Option ℚ) (g : ℚ) : Except PyError ℚ :=
  if 0 < g then
    match cp with
    | none => Except.error PyError.typeError
    | some c => Except.ok (c / g)
  else Except.ok 1

/-- `1 - (current_spot_price / ondemand_price) if ondemand_price > 0
else 0` (line 124). -/
def discountOf (cp : Option ℚ) (g : ℚ) : Except PyError ℚ :=
  if 0 < g then
    match cp with
    | none => Except.error PyError.typeError
    | some c => Except.ok (1 - c / g)
  else Except.ok 0

/-- Python division, raising `ZeroDivisionError` on a zero divisor. -/
def pyDiv (a b : ℚ) : Except PyError ℚ :=
  if b = 0 then Except.error PyError.zeroDivisionError else Except.ok (a / b)

/-- The min over spot_pools keyed by price: raises
`ValueError` on an empty list, otherwise keeps the first pool whose
price is minimal (a later pool replaces the accumulator only when its
price is strictly smaller). -/
def minPool : List SpotPool → Except PyError SpotPool
  | [] => Except.error PyError.valueError
  | p :: ps =>
    Except.ok (ps.foldl (fun acc q => if q.price < acc.price then q else acc) p)

/-- The type of `calculate_risk_score`: pool id, current price
(possibly `None`), current discount, on-demand price, returning
`(risk_score, state, reason)`. -/
def RiskScorer : Type :=
  String → Option ℚ → ℚ → ℚ → Except PyError (ℚ × String × String)

/-- `RuleBasedDecisionEngine` static thresholds (`self.rules`). -/
def rule_high_price_threshold : ℚ := 0.85

/-- The safe_price_threshold entry of the rules dict. -/
def rule_safe_price_threshold : ℚ := 0.40

/-- `RuleBasedDecisionEngine.calculate_risk_score`, parametric in the
`loaded` flag. -/
def ruleCalc (loaded : Bool) : RiskScorer :=
  fun _pool_id current_price _current_discount ondemand_price =>
    if loaded = false then Except.ok (1/2, "normal", "Engine not loaded")
    else
      match priceRatio current_price ondemand_price with
      | Except.error e => Except.error e
      | Except.ok price_ratio =>
        if rule_high_price_threshold ≤ price_ratio then
          Except.ok (0.85, "high-risk", "Price ratio at or above high threshold")
        else if price_ratio ≤ rule_safe_price_threshold then
          Except.ok (0.15, "safe-to-return", "Price ratio at or below safe threshold")
        else
          Except.ok (0.35, "normal", "Price ratio in normal range")

/-- One entry of the pool_context map of the capacity detector. -/
structure PoolContext where
  ratio_p50 : ℚ
  ratio_p92 : ℚ
deriving DecidableEq, Repr

/-- The config entry of the capacity detector: the global anomaly
thresholds. -/
structure MLConfig where
  ratio_spike_threshold : ℚ
  ratio_absolute_high : ℚ
  ratio_safe_return : ℚ
deriving DecidableEq, Repr

/-- The state of `MLBasedDecisionEngine` that
`calculate_risk_score` reads. -/
structure MLState where
  loaded : Bool
  pool_context : List (String × PoolContext)
  cfg : MLConfig
deriving DecidableEq, Repr

/-- The .get lookup of pool_id in the pool_context map. -/
def lookupContext (m : List (String × PoolContext)) (pid : String) :
    Option PoolContext :=
  (m.find? (fun e => e.1 == pid)).map Prod.snd

/-- `MLBasedDecisionEngine.calculate_risk_score`. -/
def mlCalc (st : MLState) : RiskScorer :=
  fun pool_id current_price _current_discount ondemand_price =>
    if st.loaded = false then Except.ok (1/2, "normal", "Models not loaded")
    else
      match lookupContext st.pool_context pool_id with
      | none => Except.ok (1/2, "normal", "Pool not in training data")
      | some context =>
        match priceRatio current_price ondemand_price with
        | Except.error e => Except.error e
        | Except.ok price_ratio =>
          if st.cfg.ratio_absolute_high < price_ratio then
            Except.ok (0.9, "event", "Ratio exceeds absolute threshold")
          else if context.ratio_p92 < price_ratio then
            Except.ok (0.8, "high-risk", "Ratio above p92")
          else if context.ratio_p50 * (1 + st.cfg.ratio_spike_threshold) < price_ratio then
            Except.ok (0.6, "high-risk", "Ratio spike detected")
          else if price_ratio < st.cfg.ratio_safe_return then
            Except.ok (0.2, "safe-to-return", "Ratio below safe threshold")
          else
            Except.ok (0.3, "normal", "Normal conditions")

/-- The artifacts `MLBasedDecisionEngine.load` reads from disk
(manifest, pickled detectors, config); `none` models any read, parse
or key failure. -/
structure MLData where
  pool_context : List (String × PoolContext)
  cfg : MLConfig
deriving DecidableEq, Repr

/-- The `MLBasedDecisionEngine` state as constructed (`loaded=False`,
no detectors). -/
def mlInit : MLState := { loaded := false, pool_context := [], cfg := ⟨0, 0, 0⟩ }

/-- `MLBasedDecisionEngine.load`: on success sets `loaded=True` and
installs the artifacts; on any failure logs and re-raises, leaving
`loaded=False`. -/
def mlLoad (artifacts : Option MLData) : Except PyError MLState :=
  match artifacts with
  | none => Except.error PyError.keyError
  | some d => Except.ok { loaded := true, pool_context := d.pool_context, cfg := d.cfg }

/-- The state of `RuleBasedDecisionEngine` (only the `loaded` flag). -/
structure RuleEngineState where
  loaded : Bool
deriving DecidableEq, Repr

/-- `RuleBasedDecisionEngine` as constructed. -/
def ruleEngineInit : RuleEngineState := { loaded := false }

/-- `RuleBasedDecisionEngine.load`: sets `loaded=True`, no external
dependency. -/
def ruleLoad (e : RuleEngineState) : RuleEngineState := { e with loaded := true }

/-- The state of `HybridDecisionEngine`. -/
structure HybridState where
  ml : MLState
  rule_loaded : Bool
  loaded : Bool
deriving DecidableEq, Repr

/-- `HybridDecisionEngine.load`: tries the ML load; on failure the
exception is caught, the rule engine is loaded and the hybrid still
reports itself loaded, while the inner ML engine stays unloaded. -/
def hybridLoad (artifacts : Option MLData) : HybridState :=
  match mlLoad artifacts with
  | Except.ok st => { ml := st, rule_loaded := true, loaded := true }
  | Except.error _ => { ml := mlInit, rule_loaded := true, loaded := true }

/-- `HybridDecisionEngine.calculate_risk_score`: delegates to the ML
engine when `self.ml_engine.is_loaded()`, else to the rule engine. -/
def hybridCalc (h : HybridState) : RiskScorer :=
  fun pid cp disc g =>
    if h.ml.loaded then mlCalc h.ml pid cp disc g
    else ruleCalc h.rule_loaded pid cp disc g

/-- The three concrete engines of the module, with their state; used to
quantify over the scorers that actually exist in the source. -/
inductive EngineKind
  | rule (loaded : Bool)
  | ml (st : MLState)
  | hybrid (hst : HybridState)

/-- The `calculate_risk_score` of a given engine. -/
def scorerOf : EngineKind → RiskScorer
  | .rule l => ruleCalc l
  | .ml st => mlCalc st
  | .hybrid h => hybridCalc h

/-- `if last_switch_time:` followed by the cooldown comparison
(lines 109-111). -/
def cooldownBlocked (last : Option ℚ) (now : ℚ) (min_hours : ℚ) : Bool :=
  match last with
  | some t => decide (hours_since now t < min_hours)
  | none => false

/-- Lines 129-168 of `make_decision`: pick
`(recommended_action, recommended_mode, recommended_pool_id,
expected_savings, reason)` from the scorer output and pricing. -/
def chooseAction (config : PolicyConfig) (pools : List SpotPool)
    (current_mode current_pool_id : String) (current_spot_price : Option ℚ)
    (ondemand_price : ℚ) (risk_score : ℚ) (state reason : String) :
    Except PyError (String × String × String × ℚ × String) :=
  if (state = "event" ∨ state = "high-risk") ∧ config.risk_threshold ≤ risk_score then
    match current_spot_price with
    | none => Except.error PyError.typeError
    | some c =>
      Except.ok ("fallback_ondemand", "ondemand", "n/a", -(ondemand_price - c),
        "High risk detected, fallback to on-demand recommended")
  else if state = "safe-to-return" ∧ current_mode = "ondemand" then
    match minPool pools with
    | Except.error e => Except.error e
    | Except.ok best_pool =>
      match pyDiv (ondemand_price - best_pool.price) ondemand_price with
      | Except.error e => Except.error e
      | Except.ok frac =>
        if config.min_savings_percent ≤ frac * 100 then
          Except.ok ("switch_pool", "spot", best_pool.pool_id,
            ondemand_price - best_pool.price, "Safe to return to spot")
        else Except.ok ("stay", current_mode, current_pool_id, 0, reason)
  else if current_mode = "spot" ∧ state = "normal" then
    match minPool pools with
    | Except.error e => Except.error e
    | Except.ok best_pool =>
      if best_pool.pool_id ≠ current_pool_id then
        match current_spot_price with
        | none => Except.error PyError.typeError
        | some c =>
          match pyDiv (c - best_pool.price) ondemand_price with
          | Except.error e => Except.error e
          | Except.ok frac =>
            if config.min_savings_percent ≤ frac * 100 then
              Except.ok ("switch_pool", "spot", best_pool.pool_id,
                c - best_pool.price, "Better pool available")
            else Except.ok ("stay", current_mode, current_pool_id, 0, reason)
      else Except.ok ("stay", current_mode, current_pool_id, 0, reason)
  else Except.ok ("stay", current_mode, current_pool_id, 0, reason)

/-- `BaseDecisionEngine.make_decision`, parametric in the engine
scorer. `now` is the value of `datetime.utcnow()` in seconds. -/
def make_decision (scorer : RiskScorer) (inst : InstanceState)
    (pricing : PricingSnapshot) (config : PolicyConfig)
    (recent_switches_count : ℤ) (last_switch_time : Option ℚ) (now : ℚ) :
    Except PyError Decision :=
  let rp := resolveCurrent pricing.spot_pools inst.current_pool_id
  let current_spot_price := rp.1
  let current_pool_id := rp.2
  let current_mode := inst.current_mode
  let ondemand_price := pricing.on_demand_price
  if recent_switches_count ≥ config.max_switches_per_week then
    Except.ok
      { instance_id := inst.instance_id
        risk_score := 0
        recommended_action := "stay"
        recommended_mode := current_mode
        recommended_pool_id := current_pool_id
        expected_savings_per_hour := 0
        allowed := false
        reason := "Switch limit reached this week" }
  else if cooldownBlocked last_switch_time now config.min_pool_duration_hours then
    Except.ok
      { instance_id := inst.instance_id
        risk_score := 0
        recommended_action := "stay"
        recommended_mode := current_mode
        recommended_pool_id := current_pool_id
        expected_savings_per_hour := 0
        allowed := false
        reason := "Too soon to switch" }
  else
    match discountOf current_spot_price ondemand_price with
    | Except.error e => Except.error e
    | Except.ok current_discount =>
      match scorer current_pool_id current_spot_price current_discount ondemand_price with
      | Except.error e => Except.error e
      | Except.ok (risk_score, state, reason0) =>
        match chooseAction config pricing.spot_pools current_mode current_pool_id
            current_spot_price ondemand_price risk_score state reason0 with
        | Except.error e => Except.error e
        | Except.ok (action, mode, pool, savings, rsn) =>
          Except.ok
            { instance_id := inst.instance_id
              risk_score := roundTo 4 risk_score
              recommended_action := action
              recommended_mode := mode
              recommended_pool_id := pool
              expected_savings_per_hour := roundTo 6 savings
              allowed := config.auto_switch_enabled
              reason := rsn }

/-- The engine variant selected by `DecisionEngine.__init__`. -/
inductive EngineChoice
  | mlBased
  | ruleBased
  | hybridEngine
deriving DecidableEq, Repr

/-- `DecisionEngine.__init__` engine-type dispatch: recognizes the
strings "ml_based", "rule_based" and "hybrid", raising `ValueError`
for anything else. -/
def engineInit (engine_type : String) : Except PyError EngineChoice :=
  if engine_type = "ml_based" then Except.ok EngineChoice.mlBased
  else if engine_type = "rule_based" then Except.ok EngineChoice.ruleBased
  else if engine_type = "hybrid" then Except.ok EngineChoice.hybridEngine
  else Except.error PyError.valueError

/-! ### Helper lemmas -/

theorem roundHalfEven_intCast (k : ℤ) : roundHalfEven (k : ℚ) = k := by
  unfold roundHalfEven
  norm_num

theorem roundTo_div_pow (n : ℕ) (k : ℤ) :
    roundTo n ((k : ℚ) / 10 ^ n) = (k : ℚ) / 10 ^ n := by
  unfold roundTo
  rw [div_mul_cancel₀ _ (by positivity : ((10 : ℚ) ^ n) ≠ 0), roundHalfEven_intCast]

theorem minPool_foldl_spec (l : List SpotPool) (p : SpotPool) :
    (∀ q ∈ p :: l,
      (l.foldl (fun acc q => if q.price < acc.price then q else acc) p).price ≤ q.price) ∧
    ∃ l₁ l₂,
      p :: l = l₁ ++ (l.foldl (fun acc q => if q.price < acc.price then q else acc) p) :: l₂ ∧
      ∀ q ∈ l₁, (l.foldl (fun acc q => if q.price < acc.price then q else acc) p).price < q.price := by
  induction l generalizing p with
  | nil => exact ⟨by simp, [], [], rfl, by simp⟩
  | cons q l ih =>
    rw [List.foldl_cons]
    by_cases hq : q.price < p.price
    · rw [if_pos hq]
      obtain ⟨hb, l₁, l₂, hsplit, hpre⟩ := ih q
      have hbq := hb q (List.mem_cons_self q l)
      refine ⟨?_, p :: l₁, l₂, ?_, ?_⟩
      · intro x hx
        rcases List.mem_cons.mp hx with rfl | h2
        · exact le_of_lt (lt_of_le_of_lt hbq hq)
        · exact hb x h2
      · rw [List.cons_append, ← hsplit]
      · intro x hx
        rcases List.mem_cons.mp hx with rfl | h2
        · exact lt_of_le_of_lt hbq hq
        · exact hpre x h2
    · rw [if_neg hq]
      obtain ⟨hb, l₁, l₂, hsplit, hpre⟩ := ih p
      have hpq : p.price ≤ q.price := le_of_not_lt hq
      have hbp := hb p (List.mem_cons_self p l)
      constructor
      · intro x hx
        rcases List.mem_cons.mp hx with rfl | hx2
        · exact hbp
        rcases List.mem_cons.mp hx2 with rfl | h2
        · exact le_trans hbp hpq
        · exact hb x (List.mem_cons_of_mem _ h2)
      · cases l₁ with
        | nil =>
          rw [List.nil_append] at hsplit
          obtain ⟨hpb, hl⟩ := List.cons_eq_cons.mp hsplit
          refine ⟨[], q :: l, ?_, by simp⟩
          rw [List.nil_append, ← hpb]
        | cons a l₁p =>
          rw [List.cons_append] at hsplit
          obtain ⟨hpa, hl⟩ := List.cons_eq_cons.mp hsplit
          have hba := hpre a (List.mem_cons_self a l₁p)
          have hbp2 : (l.foldl (fun acc q => if q.price < acc.price then q else acc) p).price
              < p.price := by
            have h0 := hba
            rw [← hpa] at h0
            exact h0
          refine ⟨p :: q :: l₁p, l₂, ?_, ?_⟩
          · rw [List.cons_append, List.cons_append, ← hl]
          · intro x hx
            rcases List.mem_cons.mp hx with rfl | hx2
            · exact hbp2
            rcases List.mem_cons.mp hx2 with rfl | h2
            · exact lt_of_lt_of_le hbp2 hpq
            · exact hpre x (List.mem_cons_of_mem _ h2)

theorem minPool_spec (pools : List SpotPool) (b : SpotPool)
    (h : minPool pools = Except.ok b) :
    (∀ q ∈ pools, b.price ≤ q.price) ∧
    ∃ l₁ l₂, pools = l₁ ++ b :: l₂ ∧ ∀ q ∈ l₁, b.price < q.price := by
  cases pools with
  | nil => simp [minPool] at h
  | cons p l =>
    have hb : l.foldl (fun acc q => if q.price < acc.price then q else acc) p = b := by
      simpa [minPool] using h
    rw [← hb]
    exact minPool_foldl_spec l p

theorem minPool_ok (pools : List SpotPool) (h : pools ≠ []) :
    ∃ b, minPool pools = Except.ok b := by
  cases pools with
  | nil => exact absurd rfl h
  | cons p l => exact ⟨_, rfl⟩

theorem resolveCurrent_isSome (pools : List SpotPool) (cur : String)
    (h : pools ≠ []) : ∃ c, (resolveCurrent pools cur).1 = some c := by
  cases pools with
  | nil => exact absurd rfl h
  | cons p l =>
    simp only [resolveCurrent]
    by_cases hf : priceLookup (p :: l) cur = none ∨ priceLookup (p :: l) cur = some 0
    · rw [if_pos hf]
      exact ⟨p.price, rfl⟩
    · rw [if_neg hf]
      push_neg at hf
      cases hfound : priceLookup (p :: l) cur with
      | none => exact absurd hfound hf.1
      | some c => exact ⟨c, rfl⟩

theorem pyDiv_ok (a b : ℚ) (h : b ≠ 0) : pyDiv a b = Except.ok (a / b) := by
  unfold pyDiv
  rw [if_neg h]

theorem priceRatio_ok_some (c g : ℚ) : ∃ x, priceRatio (some c) g = Except.ok x := by
  unfold priceRatio
  split
  · exact ⟨c / g, rfl⟩
  · exact ⟨1, rfl⟩

theorem priceRatio_pos (c g : ℚ) (hg : 0 < g) :
    priceRatio (some c) g = Except.ok (c / g) := by
  unfold priceRatio
  rw [if_pos hg]

theorem roundTo_eq_self (n : ℕ) (x : ℚ) (k : ℤ) (h : x = (k : ℚ) / 10 ^ n) :
    roundTo n x = x := by
  rw [h, roundTo_div_pow]

theorem riskConst_range (r : ℚ)
    (h : r = 1/2 ∨ r = 0.85 ∨ r = 0.15 ∨ r = 0.35 ∨ r = 0.9 ∨ r = 0.8 ∨
      r = 0.6 ∨ r = 0.2 ∨ r = 0.3) :
    0 ≤ r ∧ r ≤ 1 ∧ roundTo 4 r = r := by
  rcases h with rfl | rfl | rfl | rfl | rfl | rfl | rfl | rfl | rfl
  · exact ⟨by norm_num, by norm_num, roundTo_eq_self 4 _ 5000 (by norm_num)⟩
  · exact ⟨by norm_num, by norm_num, roundTo_eq_self 4 _ 8500 (by norm_num)⟩
  · exact ⟨by norm_num, by norm_num, roundTo_eq_self 4 _ 1500 (by norm_num)⟩
  · exact ⟨by norm_num, by norm_num, roundTo_eq_self 4 _ 3500 (by norm_num)⟩
  · exact ⟨by norm_num, by norm_num, roundTo_eq_self 4 _ 9000 (by norm_num)⟩
  · exact ⟨by norm_num, by norm_num, roundTo_eq_self 4 _ 8000 (by norm_num)⟩
  · exact ⟨by norm_num, by norm_num, roundTo_eq_self 4 _ 6000 (by norm_num)⟩
  · exact ⟨by norm_num, by norm_num, roundTo_eq_self 4 _ 2000 (by norm_num)⟩
  · exact ⟨by norm_num, by norm_num, roundTo_eq_self 4 _ 3000 (by norm_num)⟩

theorem ruleCalc_score (loaded : Bool) (pid : String) (cp : Option ℚ) (disc g r : ℚ)
    (s m : String) (h : ruleCalc loaded pid cp disc g = Except.ok (r, s, m)) :
    r = 1/2 ∨ r = 0.85 ∨ r = 0.15 ∨ r = 0.35 := by
  unfold ruleCalc at h
  split at h
  · simp only [Except.ok.injEq, Prod.mk.injEq] at h
    exact Or.inl h.1.symm
  · split at h
    · simp at h
    · split at h
      · simp only [Except.ok.injEq, Prod.mk.injEq] at h
        exact Or.inr (Or.inl h.1.symm)
      · split at h
        · simp only [Except.ok.injEq, Prod.mk.injEq] at h
          exact Or.inr (Or.inr (Or.inl h.1.symm))
        · simp only [Except.ok.injEq, Prod.mk.injEq] at h
          exact Or.inr (Or.inr (Or.inr h.1.symm))

theorem mlCalc_score (st : MLState) (pid : String) (cp : Option ℚ) (disc g r : ℚ)
    (s m : String) (h : mlCalc st pid cp disc g = Except.ok (r, s, m)) :
    r = 1/2 ∨ r = 0.9 ∨ r = 0.8 ∨ r = 0.6 ∨ r = 0.2 ∨ r = 0.3 := by
  unfold mlCalc at h
  split at h
  · simp only [Except.ok.injEq, Prod.mk.injEq] at h
    exact Or.inl h.1.symm
  · split at h
    · simp only [Except.ok.injEq, Prod.mk.injEq] at h
      exact Or.inl h.1.symm
    · split at h
      · simp at h
      · split at h
        · simp only [Except.ok.injEq, Prod.mk.injEq] at h
          exact Or.inr (Or.inl h.1.symm)
        · split at h
          · simp only [Except.ok.injEq, Prod.mk.injEq] at h
            exact Or.inr (Or.inr (Or.inl h.1.symm))
          · split at h
            · simp only [Except.ok.injEq, Prod.mk.injEq] at h
              exact Or.inr (Or.inr (Or.inr (Or.inl h.1.symm)))
            · split at h
              · simp only [Except.ok.injEq, Prod.mk.injEq] at h
                exact Or.inr (Or.inr (Or.inr (Or.inr (Or.inl h.1.symm))))
              · simp only [Except.ok.injEq, Prod.mk.injEq] at h
                exact Or.inr (Or.inr (Or.inr (Or.inr (Or.inr h.1.symm))))

theorem scorerOf_range (k : EngineKind) (pid : String) (cp : Option ℚ) (disc g r : ℚ)
    (s m : String) (h : scorerOf k pid cp disc g = Except.ok (r, s, m)) :
    0 ≤ r ∧ r ≤ 1 ∧ roundTo 4 r = r := by
  cases k with
  | rule l =>
    have := ruleCalc_score l pid cp disc g r s m h
    exact riskConst_range r (by tauto)
  | ml st =>
    have := mlCalc_score st pid cp disc g r s m h
    exact riskConst_range r (by tauto)
  | hybrid hst =>
    simp only [scorerOf, hybridCalc] at h
    by_cases hml : hst.ml.loaded = true
    · rw [if_pos hml] at h
      have := mlCalc_score hst.ml pid cp disc g r s m h
      exact riskConst_range r (by tauto)
    · rw [if_neg hml] at h
      have := ruleCalc_score hst.rule_loaded pid cp disc g r s m h
      exact riskConst_range r (by tauto)

/-! ### Claims -/

/-- Claim C1: if the weekly switch count has reached the limit, or
otherwise the elapsed hours since the last switch are below the
minimum pool duration, `make_decision` returns a stay decision with
`allowed = false` and `risk_score = 0.0`, without invoking the risk
scorer (the result is the same for every scorer), regardless of the
pricing snapshot and of `auto_switch_enabled`. -/
theorem claim_C1 (f g : RiskScorer) (inst : InstanceState)
    (pricing : PricingSnapshot) (config : PolicyConfig) (n : ℤ)
    (last : Option ℚ) (now : ℚ)
    (h : n ≥ config.max_switches_per_week ∨
      (n < config.max_switches_per_week ∧
        ∃ t, last = some t ∧ hours_since now t < config.min_pool_duration_hours)) :
    ∃ d, make_decision f inst pricing config n last now = Except.ok d ∧
      d.recommended_action = "stay" ∧ d.allowed = false ∧ d.risk_score = 0 ∧
      make_decision g inst pricing config n last now =
        make_decision f inst pricing config n last now := by
  rcases h with h1 | ⟨h1, t, rfl, h2⟩
  · have hfg : ∀ f0 : RiskScorer, make_decision f0 inst pricing config n last now =
        Except.ok
          { instance_id := inst.instance_id
            risk_score := 0
            recommended_action := "stay"
            recommended_mode := inst.current_mode
            recommended_pool_id := (resolveCurrent pricing.spot_pools inst.current_pool_id).2
            expected_savings_per_hour := 0
            allowed := false
            reason := "Switch limit reached this week" } := by
      intro f0
      simp only [make_decision]
      rw [if_pos h1]
    exact ⟨_, hfg f, rfl, rfl, rfl, (hfg g).trans (hfg f).symm⟩
  · have hc : cooldownBlocked (some t) now config.min_pool_duration_hours = true := by
      simp only [cooldownBlocked, decide_eq_true_eq]
      exact h2
    have hfg : ∀ f0 : RiskScorer, make_decision f0 inst pricing config n (some t) now =
        Except.ok
          { instance_id := inst.instance_id
            risk_score := 0
            recommended_action := "stay"
            recommended_mode := inst.current_mode
            recommended_pool_id := (resolveCurrent pricing.spot_pools inst.current_pool_id).2
            expected_savings_per_hour := 0
            allowed := false
            reason := "Too soon to switch" } := by
      intro f0
      simp only [make_decision]
      rw [if_neg (not_le.mpr h1), if_pos hc]
    exact ⟨_, hfg f, rfl, rfl, rfl, (hfg g).trans (hfg f).symm⟩

/-- Concrete instantiation of C1: ten switches already made against a
limit of ten blocks the decision for any scorer. -/
theorem claim_C1_witness :
    ∃ d, make_decision (ruleCalc true) ⟨"i-1", "P1", "spot"⟩ ⟨1, [⟨"P1", 1⟩]⟩
        ⟨true, 5, 7/10, 10, 2⟩ 10 none 0 = Except.ok d ∧
      d.recommended_action = "stay" ∧ d.allowed = false ∧ d.risk_score = 0 ∧
      make_decision (ruleCalc false) ⟨"i-1", "P1", "spot"⟩ ⟨1, [⟨"P1", 1⟩]⟩
          ⟨true, 5, 7/10, 10, 2⟩ 10 none 0 =
        make_decision (ruleCalc true) ⟨"i-1", "P1", "spot"⟩ ⟨1, [⟨"P1", 1⟩]⟩
          ⟨true, 5, 7/10, 10, 2⟩ 10 none 0 :=
  claim_C1 (ruleCalc true) (ruleCalc false) ⟨"i-1", "P1", "spot"⟩ ⟨1, [⟨"P1", 1⟩]⟩
    ⟨true, 5, 7/10, 10, 2⟩ 10 none 0 (Or.inl (by norm_num))

theorem discountOf_pos (c g : ℚ) (hg : 0 < g) :
    discountOf (some c) g = Except.ok (1 - c / g) := by
  unfold discountOf
  rw [if_pos hg]

theorem ruleCalc_ok (loaded : Bool) (pid : String) (c disc g : ℚ) :
    ∃ out, ruleCalc loaded pid (some c) disc g = Except.ok out := by
  unfold ruleCalc
  split
  · exact ⟨_, rfl⟩
  · obtain ⟨x, hx⟩ := priceRatio_ok_some c g
    simp only [hx]
    split
    · exact ⟨_, rfl⟩
    · split
      · exact ⟨_, rfl⟩
      · exact ⟨_, rfl⟩

theorem mlCalc_ok (st : MLState) (pid : String) (c disc g : ℚ) :
    ∃ out, mlCalc st pid (some c) disc g = Except.ok out := by
  unfold mlCalc
  split
  · exact ⟨_, rfl⟩
  · split
    · exact ⟨_, rfl⟩
    · obtain ⟨x, hx⟩ := priceRatio_ok_some c g
      simp only [hx]
      split
      · exact ⟨_, rfl⟩
      · split
        · exact ⟨_, rfl⟩
        · split
          · exact ⟨_, rfl⟩
          · split
            · exact ⟨_, rfl⟩
            · exact ⟨_, rfl⟩

theorem scorerOf_ok (k : EngineKind) (pid : String) (c disc g : ℚ) :
    ∃ out, scorerOf k pid (some c) disc g = Except.ok out := by
  cases k with
  | rule l => exact ruleCalc_ok l pid c disc g
  | ml st => exact mlCalc_ok st pid c disc g
  | hybrid hst =>
    simp only [scorerOf, hybridCalc]
    by_cases hml : hst.ml.loaded = true
    · rw [if_pos hml]
      exact mlCalc_ok hst.ml pid c disc g
    · rw [if_neg hml]
      exact ruleCalc_ok hst.rule_loaded pid c disc g

theorem chooseAction_ok (config : PolicyConfig) (pools : List SpotPool)
    (mode cpid : String) (c g r : ℚ) (s rsn : String)
    (hne : pools ≠ []) (hg : g ≠ 0) :
    ∃ out, chooseAction config pools mode cpid (some c) g r s rsn = Except.ok out := by
  obtain ⟨b, hb⟩ := minPool_ok pools hne
  unfold chooseAction
  simp only [hb, pyDiv_ok _ _ hg]
  repeat' split
  all_goals exact ⟨_, rfl⟩

theorem discountOf_ok_some (c g : ℚ) : ∃ x, discountOf (some c) g = Except.ok x := by
  unfold discountOf
  split
  · exact ⟨_, rfl⟩
  · exact ⟨_, rfl⟩

/-- Claim C2 (amended): for well-typed input whose pool list is
nonempty and whose on-demand price is nonzero (positive or negative),
`make_decision` returns a Decision without raising, for every engine
of the module. -/
theorem claim_C2 (k : EngineKind) (inst : InstanceState)
    (pricing : PricingSnapshot) (config : PolicyConfig) (n : ℤ)
    (last : Option ℚ) (now : ℚ)
    (h1 : pricing.spot_pools ≠ []) (h2 : pricing.on_demand_price ≠ 0) :
    ∃ d, make_decision (scorerOf k) inst pricing config n last now = Except.ok d := by
  by_cases hg1 : n ≥ config.max_switches_per_week
  · simp only [make_decision]
    rw [if_pos hg1]
    exact ⟨_, rfl⟩
  · by_cases hg2 :
      cooldownBlocked last now config.min_pool_duration_hours = true
    · simp only [make_decision]
      rw [if_neg hg1, if_pos hg2]
      exact ⟨_, rfl⟩
    · obtain ⟨c, hc⟩ :=
        resolveCurrent_isSome pricing.spot_pools inst.current_pool_id h1
      obtain ⟨disc, hdisc⟩ := discountOf_ok_some c pricing.on_demand_price
      obtain ⟨⟨r, s, m⟩, hs⟩ := scorerOf_ok k
        (resolveCurrent pricing.spot_pools inst.current_pool_id).2 c
        disc pricing.on_demand_price
      obtain ⟨⟨a, mo, po, sv, rs⟩, hca⟩ := chooseAction_ok config pricing.spot_pools
        inst.current_mode (resolveCurrent pricing.spot_pools inst.current_pool_id).2
        c pricing.on_demand_price r s m h1 h2
      simp only [make_decision]
      rw [if_neg hg1, if_neg hg2, hc, hdisc]
      simp only [hs, hca]
      exact ⟨_, rfl⟩

/-- Concrete instantiation of C2 (amended) at a one-pool snapshot with
a negative on-demand price. -/
theorem claim_C2_witness :
    ∃ d, make_decision (scorerOf (EngineKind.rule true)) ⟨"i-1", "P1", "spot"⟩
      ⟨-1, [⟨"P1", 1⟩]⟩ ⟨true, 5, 7/10, 10, 2⟩ 0 none 0 = Except.ok d :=
  claim_C2 (EngineKind.rule true) ⟨"i-1", "P1", "spot"⟩ ⟨-1, [⟨"P1", 1⟩]⟩
    ⟨true, 5, 7/10, 10, 2⟩ 0 none 0 (by simp) (by norm_num)

/-- Counterexample to C2 as stated: with an empty pool list, a
positive on-demand price and both gates passing, the current price
stays `None` and the discount computation raises `TypeError`; the
claim that `decide` never throws on degenerate pricing is false. -/
theorem claim_C2_counterexample :
    make_decision (ruleCalc true) ⟨"i-1", "P1", "spot"⟩ ⟨1, []⟩
      ⟨true, 5, 7/10, 10, 2⟩ 0 none 0 = Except.error PyError.typeError := by
  norm_num [make_decision, resolveCurrent, priceLookup, cooldownBlocked,
    discountOf]

theorem cooldownBlocked_false (last : Option ℚ) (now dur : ℚ)
    (h : ∀ t, last = some t → dur ≤ hours_since now t) :
    cooldownBlocked last now dur = false := by
  cases last with
  | none => rfl
  | some t =>
    simp only [cooldownBlocked, decide_eq_false_iff_not, not_lt]
    exact h t rfl

theorem make_decision_main (f : RiskScorer) (inst : InstanceState)
    (pricing : PricingSnapshot) (config : PolicyConfig) (n : ℤ)
    (last : Option ℚ) (now : ℚ) (c r sv : ℚ) (s m a mo po rs : String)
    (hg1 : n < config.max_switches_per_week)
    (hl : ∀ t, last = some t → config.min_pool_duration_hours ≤ hours_since now t)
    (hpos : 0 < pricing.on_demand_price)
    (hc : (resolveCurrent pricing.spot_pools inst.current_pool_id).1 = some c)
    (hs : f (resolveCurrent pricing.spot_pools inst.current_pool_id).2 (some c)
      (1 - c / pricing.on_demand_price) pricing.on_demand_price = Except.ok (r, s, m))
    (hca : chooseAction config pricing.spot_pools inst.current_mode
      (resolveCurrent pricing.spot_pools inst.current_pool_id).2 (some c)
      pricing.on_demand_price r s m = Except.ok (a, mo, po, sv, rs)) :
    make_decision f inst pricing config n last now = Except.ok
      { instance_id := inst.instance_id
        risk_score := roundTo 4 r
        recommended_action := a
        recommended_mode := mo
        recommended_pool_id := po
        expected_savings_per_hour := roundTo 6 sv
        allowed := config.auto_switch_enabled
        reason := rs } := by
  have hcb := cooldownBlocked_false last now config.min_pool_duration_hours hl
  simp only [make_decision]
  rw [if_neg (not_le.mpr hg1),
    if_neg (by rw [hcb]; simp :
      ¬ (cooldownBlocked last now config.min_pool_duration_hours = true))]
  rw [hc, discountOf_pos c pricing.on_demand_price hpos]
  simp only [hs, hca]

/-- Claim C3 (amended): past both policy gates, a scorer state of
event or high-risk with score at or above the risk threshold yields a
fallback-to-on-demand decision with pool "n/a"; the reported savings
are the negated price gap rounded at six decimals, which equals
`-(guaranteed - current)` exactly (and is negative when the current
price is below the guaranteed price) whenever the gap is a whole
multiple of `10 ^ (-6)`. -/
theorem claim_C3 (f : RiskScorer) (inst : InstanceState)
    (pricing : PricingSnapshot) (config : PolicyConfig) (n : ℤ)
    (last : Option ℚ) (now : ℚ) (c r : ℚ) (s m : String)
    (hg1 : n < config.max_switches_per_week)
    (hl : ∀ t, last = some t → config.min_pool_duration_hours ≤ hours_since now t)
    (hpos : 0 < pricing.on_demand_price)
    (hc : (resolveCurrent pricing.spot_pools inst.current_pool_id).1 = some c)
    (hs : f (resolveCurrent pricing.spot_pools inst.current_pool_id).2 (some c)
      (1 - c / pricing.on_demand_price) pricing.on_demand_price = Except.ok (r, s, m))
    (hstate : s = "event" ∨ s = "high-risk")
    (hr : config.risk_threshold ≤ r) :
    ∃ d, make_decision f inst pricing config n last now = Except.ok d ∧
      d.recommended_action = "fallback_ondemand" ∧
      d.recommended_mode = "ondemand" ∧
      d.recommended_pool_id = "n/a" ∧
      d.expected_savings_per_hour = roundTo 6 (-(pricing.on_demand_price - c)) ∧
      (∀ z : ℤ, pricing.on_demand_price - c = (z : ℚ) / 1000000 →
        d.expected_savings_per_hour = -(pricing.on_demand_price - c) ∧
        (c < pricing.on_demand_price → d.expected_savings_per_hour < 0)) := by
  have hca : chooseAction config pricing.spot_pools inst.current_mode
      (resolveCurrent pricing.spot_pools inst.current_pool_id).2 (some c)
      pricing.on_demand_price r s m = Except.ok
        ("fallback_ondemand", "ondemand", "n/a", -(pricing.on_demand_price - c),
          "High risk detected, fallback to on-demand recommended") := by
    unfold chooseAction
    rw [if_pos (And.intro hstate hr)]
  have hmd := make_decision_main f inst pricing config n last now c r
    (-(pricing.on_demand_price - c)) s m "fallback_ondemand" "ondemand" "n/a"
    "High risk detected, fallback to on-demand recommended"
    hg1 hl hpos hc hs hca
  refine ⟨_, hmd, rfl, rfl, rfl, rfl, ?_⟩
  intro z hz
  have hre : roundTo 6 (-(pricing.on_demand_price - c)) =
      -(pricing.on_demand_price - c) := by
    apply roundTo_eq_self 6 _ (-z)
    rw [hz]
    push_cast
    ring
  refine ⟨hre, ?_⟩
  intro hlt
  have hfield : roundTo 6 (-(pricing.on_demand_price - c)) < 0 := by
    rw [hre]
    linarith
  exact hfield

/-- Concrete instantiation of C3 (amended): current price 0.9 of a
guaranteed price 1 under the rule scorer forces the fallback branch. -/
theorem claim_C3_witness :
    ∃ d, make_decision (ruleCalc true) ⟨"i-1", "P1", "spot"⟩
        ⟨1, [⟨"P1", 9/10⟩]⟩ ⟨true, 5, 7/10, 10, 2⟩ 0 none 0 = Except.ok d ∧
      d.recommended_action = "fallback_ondemand" ∧
      d.recommended_mode = "ondemand" ∧
      d.recommended_pool_id = "n/a" ∧
      d.expected_savings_per_hour = roundTo 6 (-((1 : ℚ) - 9/10)) ∧
      (∀ z : ℤ, (1 : ℚ) - 9/10 = (z : ℚ) / 1000000 →
        d.expected_savings_per_hour = -((1 : ℚ) - 9/10) ∧
        ((9/10 : ℚ) < 1 → d.expected_savings_per_hour < 0)) :=
  claim_C3 (ruleCalc true) ⟨"i-1", "P1", "spot"⟩ ⟨1, [⟨"P1", 9/10⟩]⟩
    ⟨true, 5, 7/10, 10, 2⟩ 0 none 0 (9/10) 0.85 "high-risk"
    "Price ratio at or above high threshold"
    (by norm_num)
    (by intro t ht; simp at ht)
    (by norm_num)
    (by norm_num [resolveCurrent, priceLookup, List.find?])
    (by norm_num [ruleCalc, priceRatio, rule_high_price_threshold])
    (Or.inr rfl)
    (by norm_num)

/-- Counterexample to C3 as stated: with a price gap of `10 ^ (-7)`
(current 0.9999999, guaranteed 1) the fallback branch fires, yet the
reported savings are 0 after the six-decimal rounding of the source,
not the negative value `-(guaranteed - current)` the claim promises. -/
theorem claim_C3_counterexample :
    make_decision (ruleCalc true) ⟨"i-1", "P1", "spot"⟩
      ⟨1, [⟨"P1", 9999999/10000000⟩]⟩ ⟨true, 5, 7/10, 10, 2⟩ 0 none 0 =
    Except.ok
      { instance_id := "i-1"
        risk_score := 0.85
        recommended_action := "fallback_ondemand"
        recommended_mode := "ondemand"
        recommended_pool_id := "n/a"
        expected_savings_per_hour := 0
        allowed := true
        reason := "High risk detected, fallback to on-demand recommended" } ∧
    ¬ ((0 : ℚ) = -((1 : ℚ) - 9999999/10000000)) ∧
    (9999999/10000000 : ℚ) < 1 := by
  refine ⟨?_, by norm_num, by norm_num⟩
  have hca : chooseAction ⟨true, 5, 7/10, 10, 2⟩ [⟨"P1", 9999999/10000000⟩] "spot"
      (resolveCurrent [⟨"P1", (9999999/10000000 : ℚ)⟩] "P1").2
      (some (9999999/10000000)) 1 0.85 "high-risk"
      "Price ratio at or above high threshold" = Except.ok
        ("fallback_ondemand", "ondemand", "n/a", -((1 : ℚ) - 9999999/10000000),
          "High risk detected, fallback to on-demand recommended") := by
    unfold chooseAction
    rw [if_pos (And.intro (Or.inr rfl) (by norm_num))]
  have hmd := make_decision_main (ruleCalc true) ⟨"i-1", "P1", "spot"⟩
    ⟨1, [⟨"P1", 9999999/10000000⟩]⟩ ⟨true, 5, 7/10, 10, 2⟩ 0 none 0
    (9999999/10000000) 0.85 (-((1 : ℚ) - 9999999/10000000)) "high-risk"
    "Price ratio at or above high threshold" "fallback_ondemand" "ondemand" "n/a"
    "High risk detected, fallback to on-demand recommended"
    (by norm_num)
    (by intro t ht; simp at ht)
    (by norm_num)
    (by norm_num [resolveCurrent, priceLookup, List.find?])
    (by norm_num [ruleCalc, priceRatio, rule_high_price_threshold])
    hca
  rw [hmd]
  have h4 : roundTo 4 (0.85 : ℚ) = 0.85 := roundTo_eq_self 4 _ 8500 (by norm_num)
  have h6 : roundTo 6 (-((1 : ℚ) - 9999999/10000000)) = 0 := by
    unfold roundTo
    have hx : (-((1 : ℚ) - 9999999/10000000)) * 10 ^ 6 = -1/10 := by norm_num
    rw [hx]
    have hrh : roundHalfEven (-1/10) = 0 := by
      unfold roundHalfEven
      have hfl : Int.floor ((-1 : ℚ)/10) = -1 := by norm_num
      rw [hfl]
      norm_num
    rw [hrh]
    norm_num
  rw [h4, h6]

/-- Claim C4 (amended): past both gates, on the discounted (spot) tier
with scorer state normal, the engine picks the minimum-price pool with
ties broken by first occurrence; if it differs from the current pool
and its savings percent of the guaranteed price reaches
`min_savings_percent`, the decision is a switch to that pool whose
reported savings are `current - best` rounded at six decimals (exactly
`current - best` when that gap is a whole multiple of `10 ^ (-6)`);
otherwise the decision is stay with savings 0. -/
theorem claim_C4 (f : RiskScorer) (inst : InstanceState)
    (pricing : PricingSnapshot) (config : PolicyConfig) (n : ℤ)
    (last : Option ℚ) (now : ℚ) (c r : ℚ) (m : String) (b : SpotPool)
    (hg1 : n < config.max_switches_per_week)
    (hl : ∀ t, last = some t → config.min_pool_duration_hours ≤ hours_since now t)
    (hpos : 0 < pricing.on_demand_price)
    (hmode : inst.current_mode = "spot")
    (hc : (resolveCurrent pricing.spot_pools inst.current_pool_id).1 = some c)
    (hs : f (resolveCurrent pricing.spot_pools inst.current_pool_id).2 (some c)
      (1 - c / pricing.on_demand_price) pricing.on_demand_price =
        Except.ok (r, "normal", m))
    (hb : minPool pricing.spot_pools = Except.ok b) :
    ((∀ q ∈ pricing.spot_pools, b.price ≤ q.price) ∧
      ∃ l₁ l₂, pricing.spot_pools = l₁ ++ b :: l₂ ∧ ∀ q ∈ l₁, b.price < q.price) ∧
    (b.pool_id ≠ (resolveCurrent pricing.spot_pools inst.current_pool_id).2 →
      config.min_savings_percent ≤ (c - b.price) / pricing.on_demand_price * 100 →
      ∃ d, make_decision f inst pricing config n last now = Except.ok d ∧
        d.recommended_action = "switch_pool" ∧ d.recommended_mode = "spot" ∧
        d.recommended_pool_id = b.pool_id ∧
        d.expected_savings_per_hour = roundTo 6 (c - b.price) ∧
        (∀ z : ℤ, c - b.price = (z : ℚ) / 1000000 →
          d.expected_savings_per_hour = c - b.price)) ∧
    ((b.pool_id = (resolveCurrent pricing.spot_pools inst.current_pool_id).2 ∨
        (c - b.price) / pricing.on_demand_price * 100 < config.min_savings_percent) →
      ∃ d, make_decision f inst pricing config n last now = Except.ok d ∧
        d.recommended_action = "stay" ∧ d.recommended_mode = "spot" ∧
        d.recommended_pool_id =
          (resolveCurrent pricing.spot_pools inst.current_pool_id).2 ∧
        d.expected_savings_per_hour = 0) := by
  refine ⟨minPool_spec pricing.spot_pools b hb, ?_, ?_⟩
  · intro hne hsav
    have hca : chooseAction config pricing.spot_pools inst.current_mode
        (resolveCurrent pricing.spot_pools inst.current_pool_id).2 (some c)
        pricing.on_demand_price r "normal" m = Except.ok
          ("switch_pool", "spot", b.pool_id, c - b.price, "Better pool available") := by
      unfold chooseAction
      rw [if_neg (by simp), if_neg (by simp), if_pos (And.intro hmode rfl)]
      simp only [hb, pyDiv_ok _ _ (ne_of_gt hpos)]
      rw [if_pos hne, if_pos hsav]
    have hmd := make_decision_main f inst pricing config n last now c r
      (c - b.price) "normal" m "switch_pool" "spot" b.pool_id
      "Better pool available" hg1 hl hpos hc hs hca
    refine ⟨_, hmd, rfl, rfl, rfl, rfl, ?_⟩
    intro z hz
    exact roundTo_eq_self 6 _ z (by rw [hz]; norm_num)
  · intro h3
    have hca : chooseAction config pricing.spot_pools inst.current_mode
        (resolveCurrent pricing.spot_pools inst.current_pool_id).2 (some c)
        pricing.on_demand_price r "normal" m = Except.ok
          ("stay", inst.current_mode,
            (resolveCurrent pricing.spot_pools inst.current_pool_id).2, 0, m) := by
      unfold chooseAction
      rw [if_neg (by simp), if_neg (by simp), if_pos (And.intro hmode rfl)]
      simp only [hb, pyDiv_ok _ _ (ne_of_gt hpos)]
      rcases h3 with heq | hlt
      · rw [if_neg (not_not_intro heq)]
      · by_cases hne : b.pool_id =
          (resolveCurrent pricing.spot_pools inst.current_pool_id).2
        · rw [if_neg (not_not_intro hne)]
        · rw [if_pos hne, if_neg (not_le.mpr hlt)]
    have hmd := make_decision_main f inst pricing config n last now c r
      0 "normal" m "stay" inst.current_mode
      (resolveCurrent pricing.spot_pools inst.current_pool_id).2 m
      hg1 hl hpos hc hs hca
    refine ⟨_, hmd, rfl, hmode, rfl, ?_⟩
    exact roundTo_eq_self 6 _ 0 (by norm_num)

/-- Concrete instantiation of C4 (amended): the Scenario A snapshot
switches from P1 to the cheapest pool P2 with savings 0.005. -/
theorem claim_C4_witness :
    ∃ d, make_decision (ruleCalc true) ⟨"i-test123", "P1", "spot"⟩
        ⟨17/200, [⟨"P1", 1/25⟩, ⟨"P2", 7/200⟩, ⟨"P3", 19/500⟩]⟩
        ⟨true, 5, 7/10, 10, 2⟩ 2 none 0 = Except.ok d ∧
      d.recommended_action = "switch_pool" ∧ d.recommended_mode = "spot" ∧
      d.recommended_pool_id = "P2" ∧
      d.expected_savings_per_hour = 1/25 - 7/200 := by
  have hres2 : (resolveCurrent [⟨"P1", (1/25 : ℚ)⟩, ⟨"P2", 7/200⟩, ⟨"P3", 19/500⟩]
      "P1").2 = "P1" := by
    norm_num [resolveCurrent, priceLookup, List.find?]
  have h := claim_C4 (ruleCalc true) ⟨"i-test123", "P1", "spot"⟩
    ⟨17/200, [⟨"P1", 1/25⟩, ⟨"P2", 7/200⟩, ⟨"P3", 19/500⟩]⟩
    ⟨true, 5, 7/10, 10, 2⟩ 2 none 0 (1/25) (7/20)
    "Price ratio in normal range" ⟨"P2", 7/200⟩
    (by norm_num)
    (by intro t ht; simp at ht)
    (by norm_num)
    rfl
    (by norm_num [resolveCurrent, priceLookup, List.find?])
    (by norm_num [ruleCalc, priceRatio, rule_high_price_threshold,
      rule_safe_price_threshold])
    (by norm_num [minPool, List.foldl])
  obtain ⟨d, hd, ha, hm, hp, hsv, hex⟩ := h.2.1
    (by rw [hres2]; simp)
    (by norm_num)
  exact ⟨d, hd, ha, hm, hp, hex 5000 (by norm_num)⟩

/-- Counterexample to C4 as stated: a price gap of `10 ^ (-7)` between
the current pool and the cheapest pool passes a zero
`min_savings_percent` gate, so the engine switches, but the reported
savings are 0 after six-decimal rounding, not `current - best`. -/
theorem claim_C4_counterexample :
    make_decision (ruleCalc true) ⟨"i-1", "P1", "spot"⟩
      ⟨1, [⟨"P1", 5000001/10000000⟩, ⟨"P2", 1/2⟩]⟩
      ⟨true, 0, 7/10, 10, 2⟩ 0 none 0 =
    Except.ok
      { instance_id := "i-1"
        risk_score := 0.35
        recommended_action := "switch_pool"
        recommended_mode := "spot"
        recommended_pool_id := "P2"
        expected_savings_per_hour := 0
        allowed := true
        reason := "Better pool available" } ∧
    ¬ ((0 : ℚ) = 5000001/10000000 - 1/2) := by
  refine ⟨?_, by norm_num⟩
  have hres2 : (resolveCurrent [⟨"P1", (5000001/10000000 : ℚ)⟩, ⟨"P2", 1/2⟩]
      "P1").2 = "P1" := by
    norm_num [resolveCurrent, priceLookup, List.find?]
  have hb : minPool [⟨"P1", (5000001/10000000 : ℚ)⟩, ⟨"P2", 1/2⟩] =
      Except.ok ⟨"P2", 1/2⟩ := by
    norm_num [minPool, List.foldl]
  have hca : chooseAction ⟨true, 0, 7/10, 10, 2⟩
      [⟨"P1", 5000001/10000000⟩, ⟨"P2", 1/2⟩] "spot"
      (resolveCurrent [⟨"P1", (5000001/10000000 : ℚ)⟩, ⟨"P2", 1/2⟩] "P1").2
      (some (5000001/10000000)) 1 (7/20) "normal"
      "Price ratio in normal range" = Except.ok
        ("switch_pool", "spot", "P2", (5000001/10000000 : ℚ) - 1/2,
          "Better pool available") := by
    unfold chooseAction
    rw [if_neg (by simp), if_neg (by simp), if_pos (And.intro rfl rfl)]
    simp only [hb, pyDiv_ok _ _ (by norm_num : (1 : ℚ) ≠ 0)]
    rw [if_pos (by rw [hres2]; simp), if_pos (by norm_num)]
  have hmd := make_decision_main (ruleCalc true) ⟨"i-1", "P1", "spot"⟩
    ⟨1, [⟨"P1", 5000001/10000000⟩, ⟨"P2", 1/2⟩]⟩ ⟨true, 0, 7/10, 10, 2⟩ 0 none 0
    (5000001/10000000) (7/20) ((5000001/10000000 : ℚ) - 1/2) "normal"
    "Price ratio in normal range" "switch_pool" "spot" "P2"
    "Better pool available"
    (by norm_num)
    (by intro t ht; simp at ht)
    (by norm_num)
    (by norm_num [resolveCurrent, priceLookup, List.find?])
    (by norm_num [ruleCalc, priceRatio, rule_high_price_threshold,
      rule_safe_price_threshold])
    hca
  rw [hmd]
  have h4 : roundTo 4 (7/20 : ℚ) = 7/20 := roundTo_eq_self 4 _ 3500 (by norm_num)
  have h6 : roundTo 6 ((5000001/10000000 : ℚ) - 1/2) = 0 := by
    unfold roundTo
    have hx : ((5000001/10000000 : ℚ) - 1/2) * 10 ^ 6 = 1/10 := by norm_num
    rw [hx]
    have hrh : roundHalfEven (1/10) = 0 := by
      unfold roundHalfEven
      have hfl : Int.floor ((1 : ℚ)/10) = 0 := by norm_num
      rw [hfl]
      norm_num
    rw [hrh]
    norm_num
  rw [h4, h6]
  norm_num

/-- Claim C5: the ModelBased scorer returns exactly the neutral
default for a pool missing from the loaded context, never raising
even for extreme or missing prices, and otherwise applies the
threshold cascade on `ratio = current/guaranteed` (ratio 1 when the
guaranteed price is not positive) in priority order. -/
theorem claim_C5 (st : MLState) (pid : String) (hl : st.loaded = true) :
    (lookupContext st.pool_context pid = none →
      ∀ (cpr : Option ℚ) (disc g : ℚ),
        mlCalc st pid cpr disc g =
          Except.ok (1/2, "normal", "Pool not in training data")) ∧
    (∀ ctx, lookupContext st.pool_context pid = some ctx →
      ∀ (c disc g : ℚ),
        mlCalc st pid (some c) disc g = Except.ok
          (if st.cfg.ratio_absolute_high < (if 0 < g then c / g else 1) then
            ((0.9 : ℚ), "event", "Ratio exceeds absolute threshold")
          else if ctx.ratio_p92 < (if 0 < g then c / g else 1) then
            ((0.8 : ℚ), "high-risk", "Ratio above p92")
          else if ctx.ratio_p50 * (1 + st.cfg.ratio_spike_threshold) <
              (if 0 < g then c / g else 1) then
            ((0.6 : ℚ), "high-risk", "Ratio spike detected")
          else if (if 0 < g then c / g else 1) < st.cfg.ratio_safe_return then
            ((0.2 : ℚ), "safe-to-return", "Ratio below safe threshold")
          else ((0.3 : ℚ), "normal", "Normal conditions"))) := by
  constructor
  · intro hnone cpr disc g
    unfold mlCalc
    rw [if_neg (by rw [hl]; simp)]
    simp only [hnone]
  · intro ctx hctx c disc g
    have hratio : priceRatio (some c) g = Except.ok (if 0 < g then c / g else 1) := by
      unfold priceRatio
      split
      · rfl
      · rfl
    unfold mlCalc
    rw [if_neg (by rw [hl]; simp)]
    simp only [hctx, hratio]
    by_cases h1 : st.cfg.ratio_absolute_high < (if 0 < g then c / g else 1)
    · rw [if_pos h1, if_pos h1]
    · rw [if_neg h1, if_neg h1]
      by_cases h2 : ctx.ratio_p92 < (if 0 < g then c / g else 1)
      · rw [if_pos h2, if_pos h2]
      · rw [if_neg h2, if_neg h2]
        by_cases h3 : ctx.ratio_p50 * (1 + st.cfg.ratio_spike_threshold) <
            (if 0 < g then c / g else 1)
        · rw [if_pos h3, if_pos h3]
        · rw [if_neg h3, if_neg h3]
          by_cases h4 : (if 0 < g then c / g else 1) < st.cfg.ratio_safe_return
          · rw [if_pos h4, if_pos h4]
          · rw [if_neg h4, if_neg h4]

/-- Concrete instantiation of C5: a pool absent from the loaded
context yields the neutral default even at an extreme price ratio. -/
theorem claim_C5_witness :
    mlCalc ⟨true, [("p1", ⟨1/2, 3/4⟩)], ⟨1/4, 6/5, 2/5⟩⟩ "q"
      (some 1000000) 0 (1/1000) =
    Except.ok (1/2, "normal", "Pool not in training data") :=
  (claim_C5 ⟨true, [("p1", ⟨1/2, 3/4⟩)], ⟨1/4, 6/5, 2/5⟩⟩ "q" rfl).1
    (by decide) (some 1000000) 0 (1/1000)

/-- Claim C6: the RuleBased scorer, once loaded, maps ratio at or
above 0.85 to (0.85, high-risk), ratio at or below 0.40 to
(0.15, safe-to-return) and anything else to (0.35, normal), and the
rule engine reports loaded after `load()`. -/
theorem claim_C6 (pid : String) (c disc g : ℚ) (hg : 0 < g) :
    ruleCalc true pid (some c) disc g = Except.ok
      (if (0.85 : ℚ) ≤ c / g then
        ((0.85 : ℚ), "high-risk", "Price ratio at or above high threshold")
      else if c / g ≤ (0.40 : ℚ) then
        ((0.15 : ℚ), "safe-to-return", "Price ratio at or below safe threshold")
      else ((0.35 : ℚ), "normal", "Price ratio in normal range")) ∧
    (ruleLoad ruleEngineInit).loaded = true := by
  refine ⟨?_, rfl⟩
  unfold ruleCalc
  rw [if_neg (by simp)]
  simp only [priceRatio_pos c g hg, rule_high_price_threshold,
    rule_safe_price_threshold]
  by_cases h1 : (0.85 : ℚ) ≤ c / g
  · rw [if_pos h1, if_pos h1]
  · rw [if_neg h1, if_neg h1]
    by_cases h2 : c / g ≤ (0.40 : ℚ)
    · rw [if_pos h2, if_pos h2]
    · rw [if_neg h2, if_neg h2]

/-- Concrete instantiation of C6 at ratio 0.9. -/
theorem claim_C6_witness :
    ruleCalc true "P1" (some (9/10)) 0 1 = Except.ok
      (if (0.85 : ℚ) ≤ (9/10 : ℚ) / 1 then
        ((0.85 : ℚ), "high-risk", "Price ratio at or above high threshold")
      else if (9/10 : ℚ) / 1 ≤ (0.40 : ℚ) then
        ((0.15 : ℚ), "safe-to-return", "Price ratio at or below safe threshold")
      else ((0.35 : ℚ), "normal", "Price ratio in normal range")) ∧
    (ruleLoad ruleEngineInit).loaded = true :=
  claim_C6 "P1" (9/10) 0 1 (by norm_num)

/-- Claim C7: when the ML artifact load fails, the hybrid load
recovers locally: the inner ML engine reports unloaded, every score
call delegates to the loaded RuleBased scorer for the process
lifetime, the hybrid delegates to the ML scorer exactly when the load
succeeded, and `make_decision` behaves identically to the rule-based
engine, so the failure never reaches callers. -/
theorem claim_C7 :
    ((hybridLoad none).ml.loaded = false) ∧
    (∀ (pid : String) (cpr : Option ℚ) (disc g : ℚ),
      hybridCalc (hybridLoad none) pid cpr disc g = ruleCalc true pid cpr disc g) ∧
    (∀ a : Option MLData, (hybridLoad a).ml.loaded = a.isSome) ∧
    (∀ (a : Option MLData) (pid : String) (cpr : Option ℚ) (disc g : ℚ),
      hybridCalc (hybridLoad a) pid cpr disc g =
        match mlLoad a with
        | Except.ok st => mlCalc st pid cpr disc g
        | Except.error _ => ruleCalc true pid cpr disc g) ∧
    (∀ (inst : InstanceState) (pricing : PricingSnapshot) (config : PolicyConfig)
      (n : ℤ) (last : Option ℚ) (now : ℚ),
      make_decision (hybridCalc (hybridLoad none)) inst pricing config n last now =
        make_decision (ruleCalc true) inst pricing config n last now) := by
  refine ⟨rfl, ?_, ?_, ?_, ?_⟩
  · intro pid cpr disc g
    rfl
  · intro a
    cases a <;> rfl
  · intro a pid cpr disc g
    cases a <;> rfl
  · intro inst pricing config n last now
    rfl

/-- Claim C8 (amended): construction recognizes exactly the engine
type strings "ml_based", "rule_based" and "hybrid" (the spec calls the
first variant model-based, but the accepted string is "ml_based"),
selecting the matching variant, and raises `ValueError` at
construction time for every other string. -/
theorem claim_C8 (s : String) :
    ((∃ e, engineInit s = Except.ok e) ↔
      (s = "ml_based" ∨ s = "rule_based" ∨ s = "hybrid")) ∧
    engineInit "ml_based" = Except.ok EngineChoice.mlBased ∧
    engineInit "rule_based" = Except.ok EngineChoice.ruleBased ∧
    engineInit "hybrid" = Except.ok EngineChoice.hybridEngine ∧
    (¬ (s = "ml_based" ∨ s = "rule_based" ∨ s = "hybrid") →
      engineInit s = Except.error PyError.valueError) := by
  have herr : ¬ (s = "ml_based" ∨ s = "rule_based" ∨ s = "hybrid") →
      engineInit s = Except.error PyError.valueError := by
    intro h
    push_neg at h
    unfold engineInit
    rw [if_neg h.1, if_neg h.2.1, if_neg h.2.2]
  refine ⟨⟨?_, ?_⟩, rfl, rfl, rfl, herr⟩
  · rintro ⟨e, he⟩
    by_contra h
    rw [herr h] at he
    exact Except.noConfusion he
  · rintro (rfl | rfl | rfl)
    · exact ⟨EngineChoice.mlBased, rfl⟩
    · exact ⟨EngineChoice.ruleBased, rfl⟩
    · exact ⟨EngineChoice.hybridEngine, rfl⟩

/-- Concrete instantiation of C8 (amended): "ml_based" is accepted,
"model_based" is rejected. -/
theorem claim_C8_witness :
    engineInit "ml_based" = Except.ok EngineChoice.mlBased ∧
    engineInit "model_based" = Except.error PyError.valueError :=
  ⟨(claim_C8 "model_based").2.1,
    (claim_C8 "model_based").2.2.2.2 (by decide)⟩

/-- Counterexample to C8 as stated: the spec string "model_based" is
not recognized by the constructor, which raises `ValueError`; the
accepted string for the model-based variant is "ml_based". -/
theorem claim_C8_counterexample :
    engineInit "model_based" = Except.error PyError.valueError := by
  unfold engineInit
  rw [if_neg (by decide), if_neg (by decide), if_neg (by decide)]

/-- Claim C9: whenever `make_decision` returns, for any engine of the
module, the risk score of the decision lies in the closed interval
from 0 to 1. -/
theorem claim_C9 (k : EngineKind) (inst : InstanceState)
    (pricing : PricingSnapshot) (config : PolicyConfig) (n : ℤ)
    (last : Option ℚ) (now : ℚ) (d : Decision)
    (h : make_decision (scorerOf k) inst pricing config n last now = Except.ok d) :
    0 ≤ d.risk_score ∧ d.risk_score ≤ 1 := by
  simp only [make_decision] at h
  by_cases hg1 : n ≥ config.max_switches_per_week
  · rw [if_pos hg1] at h
    simp only [Except.ok.injEq] at h
    subst h
    norm_num
  · rw [if_neg hg1] at h
    by_cases hg2 : cooldownBlocked last now config.min_pool_duration_hours = true
    · rw [if_pos hg2] at h
      simp only [Except.ok.injEq] at h
      subst h
      norm_num
    · rw [if_neg hg2] at h
      cases hdm : discountOf (resolveCurrent pricing.spot_pools inst.current_pool_id).1
          pricing.on_demand_price with
      | error e =>
        simp only [hdm] at h
        exact absurd h (by simp)
      | ok disc =>
        simp only [hdm] at h
        cases hsc : scorerOf k
            (resolveCurrent pricing.spot_pools inst.current_pool_id).2
            (resolveCurrent pricing.spot_pools inst.current_pool_id).1 disc
            pricing.on_demand_price with
        | error e =>
          simp only [hsc] at h
          exact absurd h (by simp)
        | ok out =>
          obtain ⟨r, s, m⟩ := out
          simp only [hsc] at h
          cases hch : chooseAction config pricing.spot_pools inst.current_mode
              (resolveCurrent pricing.spot_pools inst.current_pool_id).2
              (resolveCurrent pricing.spot_pools inst.current_pool_id).1
              pricing.on_demand_price r s m with
          | error e =>
            simp only [hch] at h
            exact absurd h (by simp)
          | ok out2 =>
            obtain ⟨a, mo, po, sv, rs⟩ := out2
            simp only [hch] at h
            simp only [Except.ok.injEq] at h
            subst h
            obtain ⟨h0, h1, hround⟩ := scorerOf_range k
              (resolveCurrent pricing.spot_pools inst.current_pool_id).2
              (resolveCurrent pricing.spot_pools inst.current_pool_id).1 disc
              pricing.on_demand_price r s m hsc
            constructor
            · show 0 ≤ roundTo 4 r
              rw [hround]
              exact h0
            · show roundTo 4 r ≤ 1
              rw [hround]
              exact h1

/-- Concrete instantiation of C9 on a gate-blocked call. -/
theorem claim_C9_witness :
    0 ≤ (⟨"i-1", 0, "stay", "spot", (resolveCurrent [⟨"P1", 1⟩] "P1").2, 0, false,
        "Switch limit reached this week"⟩ : Decision).risk_score ∧
      (⟨"i-1", 0, "stay", "spot", (resolveCurrent [⟨"P1", 1⟩] "P1").2, 0, false,
        "Switch limit reached this week"⟩ : Decision).risk_score ≤ 1 :=
  claim_C9 (EngineKind.rule true) ⟨"i-1", "P1", "spot"⟩ ⟨1, [⟨"P1", 1⟩]⟩
    ⟨true, 5, 7/10, 10, 2⟩ 10 none 0 _
    (by simp only [make_decision]; rw [if_pos (by norm_num)])

/-- Claim C10: a quote for the current pool whose price is exactly 0
is treated as absent by the Python falsiness test, so with a nonempty
pool list the first quote is adopted as the synthetic current
price/pool, visibly changing the reported `recommended_pool_id` even
on a gate-blocked stay decision. -/
theorem claim_C10 (f : RiskScorer) (inst : InstanceState)
    (pricing : PricingSnapshot) (config : PolicyConfig) (n : ℤ)
    (last : Option ℚ) (now : ℚ) (q : SpotPool) (rest : List SpotPool)
    (hp : pricing.spot_pools = q :: rest)
    (hz : priceLookup pricing.spot_pools inst.current_pool_id = some 0)
    (hgate : n ≥ config.max_switches_per_week) :
    resolveCurrent pricing.spot_pools inst.current_pool_id =
      (some q.price, q.pool_id) ∧
    ∃ d, make_decision f inst pricing config n last now = Except.ok d ∧
      d.recommended_action = "stay" ∧ d.allowed = false ∧
      d.recommended_pool_id = q.pool_id := by
  have hz2 := hz
  rw [hp] at hz2
  have hres : resolveCurrent pricing.spot_pools inst.current_pool_id =
      (some q.price, q.pool_id) := by
    simp [resolveCurrent, hp, hz2]
  have hmd : make_decision f inst pricing config n last now = Except.ok
      { instance_id := inst.instance_id
        risk_score := 0
        recommended_action := "stay"
        recommended_mode := inst.current_mode
        recommended_pool_id := (resolveCurrent pricing.spot_pools inst.current_pool_id).2
        expected_savings_per_hour := 0
        allowed := false
        reason := "Switch limit reached this week" } := by
    simp only [make_decision]
    rw [if_pos hgate]
  refine ⟨hres, _, hmd, rfl, rfl, ?_⟩
  show (resolveCurrent pricing.spot_pools inst.current_pool_id).2 = q.pool_id
  rw [hres]

/-- Concrete instantiation of C10: the current pool P2 is quoted at
price 0, so the first quote P1 is substituted and the gate-blocked
stay decision names P1 instead of P2. -/
theorem claim_C10_witness :
    resolveCurrent [⟨"P1", 3⟩, ⟨"P2", 0⟩] "P2" = (some 3, "P1") ∧
    ∃ d, make_decision (ruleCalc true) ⟨"i-1", "P2", "spot"⟩
        ⟨1, [⟨"P1", 3⟩, ⟨"P2", 0⟩]⟩ ⟨true, 5, 7/10, 10, 2⟩ 10 none 0 =
      Except.ok d ∧
      d.recommended_action = "stay" ∧ d.allowed = false ∧
      d.recommended_pool_id = "P1" :=
  claim_C10 (ruleCalc true) ⟨"i-1", "P2", "spot"⟩ ⟨1, [⟨"P1", 3⟩, ⟨"P2", 0⟩]⟩
    ⟨true, 5, 7/10, 10, 2⟩ 10 none 0 ⟨"P1", 3⟩ [⟨"P2", 0⟩] rfl (by decide)
    (by norm_num)
